import Mathlib

/-!
Shallow embedding of the seat-allocation and ticket-lifecycle engine of the
Flask bus-ticket-booking API (src/models.py, src/utils.py, src/routes.py).

Python strings are modelled as Lean `String` / `List Char`; Python `set` as a
duplicate-free `List String` observed only through membership, add, discard
and length; Python `dict` as an association list with first-match lookup,
in-place overwrite and key removal; Python `float` as `ℚ` (every fare and
occupancy value reachable in this program is an exact decimal, so the IEEE
results coincide with the rational ones); `datetime.now()` as an explicit
`Nat` clock argument.  Regexes are unfolded to the concrete character scans
they denote, with Python's `$` matching at end of string or before one final
newline, and `re.match` anchored at the start.
-/

namespace BusApi

/-- The apostrophe character, a member of the passenger-name class. -/
def apostChar : Char := Char.ofNat 39

/-- The double-quote character, removed by `sanitize_input`. -/
def quoteChar : Char := Char.ofNat 34

/-- ASCII whitespace recognised by Python `str.strip` and the regex class
`\s` (space, tab, newline, carriage return, vertical tab, form feed). -/
def isWsChar (c : Char) : Bool :=
  c = ' ' || c = '\t' || c = '\n' || c = '\r' || c = Char.ofNat 11 || c = Char.ofNat 12

/-- Python `str.strip()` on a character list. -/
def stripChars (l : List Char) : List Char :=
  (l.dropWhile isWsChar).reverse.dropWhile isWsChar |>.reverse

/-- Python `str.strip()`. -/
def pyStrip (s : String) : String := ⟨stripChars s.data⟩

/-- Python `str.upper()` (ASCII range, as used by this program). -/
def pyUpper (s : String) : String := ⟨s.data.map Char.toUpper⟩

/-- Decimal value of a digit run, as Python `int` on a digit string. -/
def digitsToNat (l : List Char) : Nat :=
  l.foldl (fun acc c => acc * 10 + (c.toNat - '0'.toNat)) 0

/-- Python `int(s)` restricted to the shapes this program feeds it:
surrounding whitespace is ignored (as `int` does), then a digit run. -/
def pyIntDigits (l : List Char) : Nat := digitsToNat (stripChars l)

/-- Embeds `re.findall(r'\d+', s)[0]`: the first maximal run of digits, if any. -/
def firstDigitRun : List Char → Option (List Char)
  | [] => none
  | c :: rest =>
    if c.isDigit then some ((c :: rest).takeWhile Char.isDigit)
    else firstDigitRun rest

/-- Python's `$` anchor: end of string, or just before one final newline. -/
def tailDollar (rest : List Char) : Bool := rest = [] || rest = ['\n']

/-- Embeds `f"S{n:02d}"`: zero-pad the decimal rendering of `n` to width two. -/
def seatName (n : Nat) : String :=
  if n < 10 then "S0" ++ toString n else "S" ++ toString n

/-- Embeds `f"BUS{n:03d}"`: zero-pad the decimal rendering of `n` to width three. -/
def busName (n : Nat) : String :=
  if n < 10 then "BUS00" ++ toString n
  else if n < 100 then "BUS0" ++ toString n
  else "BUS" ++ toString n

/-- Membership in the regex class `[a-zA-Z\s\-'\.]` of
`validate_passenger_name`. -/
def isNameChar (c : Char) : Bool :=
  c.isAlpha || isWsChar c || c = '-' || c = apostChar || c = '.'

/-- Embeds `utils.validate_passenger_name`: non-empty, at least two characters after
trimming, and every trimmed character drawn from letters, whitespace,
hyphen, apostrophe, period (`re.match(r"^[a-zA-Z\s\-'\.]+$", name.strip())`;
the stripped string has no trailing newline, so `$` is plain end). -/
def validate_passenger_name (name : String) : Bool :=
  if name = "" || (pyStrip name).data.length < 2 then false
  else
    let t := (pyStrip name).data
    decide (t ≠ []) && t.all isNameChar

/-- Embeds `re.match(r"^BUS\d{3}$", s)` as a character scan. -/
def busPatternMatch (l : List Char) : Bool :=
  match l with
  | 'B' :: 'U' :: 'S' :: d1 :: d2 :: d3 :: rest =>
    d1.isDigit && d2.isDigit && d3.isDigit && tailDollar rest
  | _ => false

/-- Embeds `utils.validate_bus_number`: non-empty and `^BUS\d{3}$` on the
upper-cased input. -/
def validate_bus_number (bus_number : String) : Bool :=
  if bus_number = "" then false
  else busPatternMatch (pyUpper bus_number).data

/-- Embeds `re.match(r"^S\d{2}$", s)` as a character scan. -/
def seatPatternMatch (l : List Char) : Bool :=
  match l with
  | 'S' :: d1 :: d2 :: rest => d1.isDigit && d2.isDigit && tailDollar rest
  | _ => false

/-- Embeds `utils.validate_seat_number`: non-empty and `^S\d{2}$` on the
upper-cased input. -/
def validate_seat_number (seat_number : String) : Bool :=
  if seat_number = "" then false
  else seatPatternMatch (pyUpper seat_number).data

/-- Embeds `utils.format_seat_number`: strip non-alphanumerics, take the first digit
run; positions 1..40 are rendered `S%02d`, anything else falls through to
the upper-cased raw input. -/
def format_seat_number (seat_input : String) : String :=
  if seat_input = "" then ""
  else
    let clean := seat_input.data.filter Char.isAlphanum
    match firstDigitRun clean with
    | some ds =>
      let n := digitsToNat ds
      if 1 ≤ n ∧ n ≤ 40 then seatName n else pyUpper seat_input
    | none => pyUpper seat_input

/-- Embeds `utils.format_bus_number`: first digit run of the raw input; numbers
1..999 are rendered `BUS%03d`, anything else falls through to the
upper-cased raw input. -/
def format_bus_number (bus_input : String) : String :=
  if bus_input = "" then ""
  else
    match firstDigitRun bus_input.data with
    | some ds =>
      let n := digitsToNat ds
      if 1 ≤ n ∧ n ≤ 999 then busName n else pyUpper bus_input
    | none => pyUpper bus_input

/-- Scan to the first unescaped closing angle bracket, returning the
remainder past it; `none` when the list holds no closing bracket. -/
def dropThroughGt : List Char → Option (List Char)
  | [] => none
  | c :: rest => if c = '>' then some rest else dropThroughGt rest

theorem dropThroughGt_length : ∀ l l', dropThroughGt l = some l' →
    l'.length < l.length := by
  intro l
  induction l with
  | nil => intro l' h; simp [dropThroughGt] at h
  | cons c rest ih =>
    intro l' h
    simp only [dropThroughGt] at h
    by_cases hc : c = '>'
    · simp [hc] at h
      simp [← h, List.length_cons]
    · simp [hc] at h
      have := ih l' h
      simp [List.length_cons]; omega

/-- Fuelled scanner behind `stripTags`; the fuel only serves structural
recursion and is always at least the list length at every call. -/
def stripTagsAux : Nat → List Char → List Char
  | 0, _ => []
  | _, [] => []
  | fuel + 1, c :: rest =>
    if c = '<' then
      match dropThroughGt rest with
      | some rest' => stripTagsAux fuel rest'
      | none => c :: stripTagsAux fuel rest
    else c :: stripTagsAux fuel rest

/-- Embeds `re.sub(r'<[^>]*>', '', s)`: left-to-right removal of angle-bracket
tags whose body contains no closing bracket; an opening bracket with no
later closing bracket stays.  Each step consumes at least one character,
so fuel equal to the length runs the scan to completion. -/
def stripTags (l : List Char) : List Char := stripTagsAux l.length l

/-- The character class `[<>"\']` removed by `sanitize_input`. -/
def isHarmfulChar (c : Char) : Bool :=
  c = '<' || c = '>' || c = quoteChar || c = apostChar

/-- Embeds `utils.sanitize_input`: remove HTML tags, remove the characters
`< > " '`, then strip surrounding whitespace. -/
def sanitize_input (input_str : String) : String :=
  if input_str = "" then ""
  else ⟨stripChars ((stripTags input_str.data).filter (fun c => !isHarmfulChar c))⟩

/-- Embeds `utils.calculate_fare`: base fare 50.0, doubled-up by the premium-bus
multiplier 1.5 for BUS001/BUS002, then by the seat-class multiplier
(standard 1.0, premium 1.3, sleeper 1.5; unknown classes 1.0).  Every
reachable product is an exact decimal, so `ℚ` agrees with the IEEE floats
the source computes. -/
def calculate_fare (bus_number : String) (seat_type : String) : ℚ :=
  let base_fare : ℚ := if bus_number = "BUS001" ∨ bus_number = "BUS002"
    then 50 * 1.5 else 50
  let mult : ℚ :=
    if seat_type = "standard" then 1
    else if seat_type = "premium" then 1.3
    else if seat_type = "sleeper" then 1.5
    else 1
  base_fare * mult

/-- Embeds `utils.get_seat_type`: identifiers failing `validate_seat_number`
default to "standard"; otherwise `int(seat_number[1:])` classifies
positions ≤ 10 as premium, > 30 as sleeper, the rest standard. -/
def get_seat_type (seat_number : String) : String :=
  if ¬ validate_seat_number seat_number then "standard"
  else
    let seat_num := pyIntDigits (seat_number.data.drop 1)
    if seat_num ≤ 10 then "premium"
    else if seat_num > 30 then "sleeper"
    else "standard"

/-- The validation-error tags produced by `utils.validate_ticket_data`
(the source returns message strings; only their identity matters here). -/
inductive VErr where
  | nameRequired | busRequired | seatRequired
  | invalidName | invalidBus | invalidSeat
deriving DecidableEq, Repr

/-- Embeds `utils.validate_ticket_data` on the three sanitized fields: required
(non-empty) checks in field order, then per-field format validation of the
fields that are present, with bus and seat re-formatted before checking. -/
def validate_ticket_data (name bus seat : String) : List VErr :=
  (if name = "" then [VErr.nameRequired] else []) ++
  (if bus = "" then [VErr.busRequired] else []) ++
  (if seat = "" then [VErr.seatRequired] else []) ++
  (if name ≠ "" ∧ ¬ validate_passenger_name name then [VErr.invalidName] else []) ++
  (if bus ≠ "" ∧ ¬ validate_bus_number (format_bus_number bus) then [VErr.invalidBus] else []) ++
  (if seat ≠ "" ∧ ¬ validate_seat_number (format_seat_number seat) then [VErr.invalidSeat] else [])

/-! ### models.py -/

/-- Embeds `models.Ticket`: `booking_time` is the `datetime.now()` value captured at
construction, supplied here as an explicit clock argument. -/
structure Ticket where
  id : Nat
  name : String
  bus : String
  seat : String
  booking_time : Nat
  status : String
deriving DecidableEq, Repr

/-- Embeds `Ticket.update(name=...)` as invoked by the routes layer (`name` is the
only field callers pass; `hasattr` holds and `name ≠ 'id'`). -/
def Ticket.updateName (t : Ticket) (newName : String) : Ticket :=
  { t with name := newName }

/-- Embeds `Ticket.cancel()`. -/
def Ticket.cancelTicket (t : Ticket) : Ticket :=
  { t with status := "cancelled" }

/-- Embeds `models.Bus`: the Python `set` of booked seats is a duplicate-free list
observed only through membership, add, discard and length. -/
structure Bus where
  bus_number : String
  total_seats : Nat
  booked_seats : List String
deriving DecidableEq, Repr

/-- Embeds `Bus.is_seat_available`. -/
def Bus.is_seat_available (b : Bus) (seat_number : String) : Bool :=
  seat_number ∉ b.booked_seats

/-- Embeds `Bus.book_seat`: add the seat and report success when it was available,
else report failure leaving the set untouched. -/
def Bus.book_seat (b : Bus) (seat_number : String) : Bool × Bus :=
  if b.is_seat_available seat_number then
    (true, { b with booked_seats := b.booked_seats ++ [seat_number] })
  else (false, b)

/-- Embeds `Bus.release_seat` (`set.discard`: no-op when absent). -/
def Bus.release_seat (b : Bus) (seat_number : String) : Bus :=
  { b with booked_seats := b.booked_seats.filter (fun s => s ≠ seat_number) }

/-- Embeds `Bus.get_available_seats`: `S01 .. S{total}` minus the booked set, in
ascending position order. -/
def Bus.get_available_seats (b : Bus) : List String :=
  (((List.range b.total_seats).map (fun i => seatName (i + 1))).filter
    (fun seat => seat ∉ b.booked_seats))

/-- Embeds `Bus.get_occupancy_rate`: booked / total × 100 (unrounded). -/
def Bus.get_occupancy_rate (b : Bus) : ℚ :=
  ((b.booked_seats.length : ℚ) / (b.total_seats : ℚ)) * 100

/-- Banker's rounding of a rational to the nearest integer, as Python's
`round` resolves ties (half to even). -/
def roundHalfEven (q : ℚ) : ℤ :=
  let f := ⌊q⌋
  let r := q - f
  if r < 1/2 then f
  else if 1/2 < r then f + 1
  else if f % 2 = 0 then f else f + 1

/-- Python `round(x, 2)`. -/
def round2 (q : ℚ) : ℚ := (roundHalfEven (q * 100) : ℚ) / 100

/-- The dictionary `Bus.to_dict` builds. -/
structure BusDict where
  bus_number : String
  total_seats : Nat
  booked_seats : Nat
  available_seats : Nat
  occupancy_rate : ℚ
deriving DecidableEq, Repr

/-- Embeds `Bus.to_dict`. -/
def Bus.to_dict (b : Bus) : BusDict :=
  { bus_number := b.bus_number
    total_seats := b.total_seats
    booked_seats := b.booked_seats.length
    available_seats := b.get_available_seats.length
    occupancy_rate := round2 b.get_occupancy_rate }

/-- Python `dict` lookup (`d.get(k)`); keys are unique, first match. -/
def dictGet {α β : Type} [DecidableEq α] : List (α × β) → α → Option β
  | [], _ => none
  | (a, b) :: rest, k => if a = k then some b else dictGet rest k

/-- Python `d[k] = v`: overwrite the entry when the key is present
(insertion order kept), otherwise append a fresh entry. -/
def dictSet {α β : Type} [DecidableEq α] : List (α × β) → α → β → List (α × β)
  | [], k, v => [(k, v)]
  | (a, b) :: rest, k, v =>
    if a = k then (k, v) :: rest else (a, b) :: dictSet rest k v

/-- Python `del d[k]`. -/
def dictErase {α β : Type} [DecidableEq α] (d : List (α × β)) (k : α) :
    List (α × β) :=
  d.filter (fun p => p.1 ≠ k)

/-- Embeds `models.TicketManager`: ticket store, bus fleet, global id counter. -/
structure TicketManager where
  tickets : List (Nat × Ticket)
  buses : List (String × Bus)
  next_ticket_id : Nat
deriving DecidableEq, Repr

/-- Embeds `TicketManager._initialize_buses` / `__init__`: five 40-seat buses,
empty ticket store, counter starting at 1. -/
def initManager : TicketManager :=
  { tickets := []
    buses := ["BUS001", "BUS002", "BUS003", "BUS004", "BUS005"].map
      (fun n => (n, { bus_number := n, total_seats := 40, booked_seats := [] }))
    next_ticket_id := 1 }

/-- Embeds `TicketManager.create_ticket`: unknown bus fails; then the bus's
`book_seat` decides; on success the ticket is stored under the current
counter value and the counter advances.  Failure paths leave the manager
untouched (the in-place `book_seat` mutates nothing when it returns false). -/
def TicketManager.create_ticket (m : TicketManager) (name bus seat : String)
    (now : Nat) : Option Ticket × TicketManager :=
  match dictGet m.buses bus with
  | none => (none, m)
  | some b =>
    match b.book_seat seat with
    | (false, _) => (none, m)
    | (true, b') =>
      let t : Ticket :=
        { id := m.next_ticket_id, name := name, bus := bus, seat := seat
          booking_time := now, status := "confirmed" }
      (some t,
        { tickets := dictSet m.tickets m.next_ticket_id t
          buses := dictSet m.buses bus b'
          next_ticket_id := m.next_ticket_id + 1 })

/-- Embeds `TicketManager.get_ticket`. -/
def TicketManager.get_ticket (m : TicketManager) (ticket_id : Nat) :
    Option Ticket :=
  dictGet m.tickets ticket_id

/-- Embeds `TicketManager.update_ticket(ticket_id, name=...)`: look the ticket up,
mutate its name in place when found, return it. -/
def TicketManager.update_ticket (m : TicketManager) (ticket_id : Nat)
    (newName : String) : Option Ticket × TicketManager :=
  match m.get_ticket ticket_id with
  | none => (none, m)
  | some t =>
    let t' := t.updateName newName
    (some t', { m with tickets := dictSet m.tickets ticket_id t' })

/-- Embeds `TicketManager.cancel_ticket`: when the ticket exists, release its seat
on its bus (when that bus exists), flip the ticket's status (an in-place
write that the following deletion makes unobservable), delete the record
and report `true`; otherwise report `false`. -/
def TicketManager.cancel_ticket (m : TicketManager) (ticket_id : Nat) :
    Bool × TicketManager :=
  match m.get_ticket ticket_id with
  | none => (false, m)
  | some t =>
    let buses' := match dictGet m.buses t.bus with
      | none => m.buses
      | some b => dictSet m.buses t.bus (b.release_seat t.seat)
    let tickets' := dictErase (dictSet m.tickets ticket_id t.cancelTicket) ticket_id
    (true, { m with buses := buses', tickets := tickets' })

/-- Embeds `TicketManager.get_bus_info`. -/
def TicketManager.get_bus_info (m : TicketManager) (bus_number : String) :
    Option BusDict :=
  (dictGet m.buses bus_number).map Bus.to_dict

/-- Embeds `TicketManager.get_available_seats`: unknown bus yields the empty
list. -/
def TicketManager.get_available_seats (m : TicketManager)
    (bus_number : String) : List String :=
  match dictGet m.buses bus_number with
  | none => []
  | some b => b.get_available_seats

/-! ### routes.py -/

/-- The error responses of the ticket endpoints in `routes.py`, tagged by
their `error_code` (payload: the available-seats list returned alongside
`SEAT_NOT_AVAILABLE`, and the validation errors of `VALIDATION_ERROR`). -/
inductive ApiError where
  | VALIDATION_ERROR (errors : List VErr)
  | SEAT_NOT_AVAILABLE (available_seats : List String)
  | CREATION_FAILED
  | TICKET_NOT_FOUND
  | NO_DATA
  | NO_VALID_FIELDS
deriving DecidableEq, Repr

/-- The `error_code` tag of a ticket-endpoint outcome, for stating which
branch answered. -/
def errKind : Except ApiError Ticket → String
  | .ok _ => "ok"
  | .error (.VALIDATION_ERROR _) => "VALIDATION_ERROR"
  | .error (.SEAT_NOT_AVAILABLE _) => "SEAT_NOT_AVAILABLE"
  | .error .CREATION_FAILED => "CREATION_FAILED"
  | .error .TICKET_NOT_FOUND => "TICKET_NOT_FOUND"
  | .error .NO_DATA => "NO_DATA"
  | .error .NO_VALID_FIELDS => "NO_VALID_FIELDS"

/-- Embeds `routes.create_ticket` (POST /api/tickets) on a request body carrying
the three fields (absent fields arrive as `""` through `data.get(..., '')`):
sanitize and format, validate, pre-check availability, then call the
manager.  The response's fare and seat-type decoration does not change the
stored state and is reproduced by `calculate_fare`/`get_seat_type` on the
stored fields. -/
def routesCreateTicket (m : TicketManager) (name bus seat : String)
    (now : Nat) : Except ApiError Ticket × TicketManager :=
  let sname := sanitize_input name
  let sbus := format_bus_number bus
  let sseat := format_seat_number seat
  let errors := validate_ticket_data sname sbus sseat
  if errors ≠ [] then (.error (.VALIDATION_ERROR errors), m)
  else
    let available_seats := m.get_available_seats sbus
    if sseat ∉ available_seats then
      (.error (.SEAT_NOT_AVAILABLE available_seats), m)
    else
      match m.create_ticket sname sbus sseat now with
      | (none, m') => (.error .CREATION_FAILED, m')
      | (some t, m') => (.ok t, m')

/-- Embeds `routes.update_ticket` (PUT /api/tickets/id).  The request body is
`none` when no JSON data arrived, `some none` when data arrived without a
`name` field, `some (some n)` when a name was supplied.  The handler only
checks existence and sanitizes; it never validates the new name. -/
def routesUpdateTicket (m : TicketManager) (ticket_id : Nat)
    (body : Option (Option String)) : Except ApiError Ticket × TicketManager :=
  match m.get_ticket ticket_id with
  | none => (.error .TICKET_NOT_FOUND, m)
  | some _ =>
    match body with
    | none => (.error .NO_DATA, m)
    | some none => (.error .NO_VALID_FIELDS, m)
    | some (some n) =>
      match m.update_ticket ticket_id (sanitize_input n) with
      | (some t', m') => (.ok t', m')
      | (none, m') => (.error .TICKET_NOT_FOUND, m')

/-- Embeds `routes.cancel_ticket` (DELETE /api/tickets/id). -/
def routesCancelTicket (m : TicketManager) (ticket_id : Nat) :
    Bool × TicketManager :=
  m.cancel_ticket ticket_id

/-! ### Operation traces over the engine -/

/-- One engine operation, for reasoning about all reachable states. -/
inductive Op where
  | create (name bus seat : String) (now : Nat)
  | cancel (ticket_id : Nat)
  | update (ticket_id : Nat) (newName : String)
deriving DecidableEq, Repr

/-- Apply one operation, also recording the id of a successfully created
ticket. -/
def stepOp : TicketManager × List Nat → Op → TicketManager × List Nat
  | (m, issued), .create name bus seat now =>
    match m.create_ticket name bus seat now with
    | (some t, m') => (m', issued ++ [t.id])
    | (none, m') => (m', issued)
  | (m, issued), .cancel tid => ((m.cancel_ticket tid).2, issued)
  | (m, issued), .update tid n => ((m.update_ticket tid n).2, issued)

/-- Run a trace from the freshly initialised manager, collecting the ids
issued along the way. -/
def runOps (ops : List Op) : TicketManager × List Nat :=
  ops.foldl stepOp (initManager, [])

/-! ### Dictionary lemmas -/

theorem dictGet_dictSet_self {α β : Type} [DecidableEq α]
    (d : List (α × β)) (k : α) (v : β) :
    dictGet (dictSet d k v) k = some v := by
  induction d with
  | nil => simp [dictSet, dictGet]
  | cons p rest ih =>
    obtain ⟨a, b⟩ := p
    by_cases hak : a = k
    · simp [dictSet, dictGet, hak]
    · simp [dictSet, dictGet, hak, ih]

theorem dictGet_dictSet_ne {α β : Type} [DecidableEq α]
    (d : List (α × β)) (k k' : α) (v : β) (h : k' ≠ k) :
    dictGet (dictSet d k v) k' = dictGet d k' := by
  have hk : k ≠ k' := fun hh => h hh.symm
  induction d with
  | nil => simp [dictSet, dictGet, hk]
  | cons p rest ih =>
    obtain ⟨a, b⟩ := p
    by_cases hak : a = k
    · subst hak
      simp [dictSet, dictGet, hk]
    · by_cases hak' : a = k'
      · simp [dictSet, dictGet, hak, hak', h]
      · simp [dictSet, dictGet, hak, hak', ih]

theorem dictGet_dictErase_self {α β : Type} [DecidableEq α]
    (d : List (α × β)) (k : α) :
    dictGet (dictErase d k) k = none := by
  induction d with
  | nil => simp [dictErase, dictGet]
  | cons p rest ih =>
    obtain ⟨a, b⟩ := p
    by_cases hak : a = k
    · simpa [dictErase, hak] using ih
    · simpa [dictErase, dictGet, hak] using ih

theorem dictGet_dictErase_ne {α β : Type} [DecidableEq α]
    (d : List (α × β)) (k k' : α) (h : k' ≠ k) :
    dictGet (dictErase d k) k' = dictGet d k' := by
  have hk : k ≠ k' := fun hh => h hh.symm
  induction d with
  | nil => simp [dictErase, dictGet]
  | cons p rest ih =>
    obtain ⟨a, b⟩ := p
    by_cases hak : a = k
    · subst hak
      simpa [dictErase, dictGet, hk] using ih
    · by_cases hak' : a = k'
      · simp [dictErase, dictGet, hak, hak', h]
      · simpa [dictErase, dictGet, hak, hak'] using ih

/-! ### book_seat characterisation -/

theorem book_seat_true_iff (b : Bus) (seat : String) (b' : Bus) :
    b.book_seat seat = (true, b') ↔
      seat ∉ b.booked_seats ∧
        b' = { b with booked_seats := b.booked_seats ++ [seat] } := by
  unfold Bus.book_seat Bus.is_seat_available
  by_cases h : seat ∈ b.booked_seats
  · simp [h]
  · simp [h, eq_comm]

theorem book_seat_false_iff (b : Bus) (seat : String) (b' : Bus) :
    b.book_seat seat = (false, b') ↔ seat ∈ b.booked_seats ∧ b' = b := by
  unfold Bus.book_seat Bus.is_seat_available
  by_cases h : seat ∈ b.booked_seats
  · simp [h, eq_comm]
  · simp [h]

/-! ### Engine invariant

Every stored ticket is keyed by its own id, has status "confirmed" (the
cancellation path deletes the record), an id below the counter, and a seat
marked booked on its (existing) bus; and no two stored tickets share a
(bus, seat) pair.
-/

def Inv (m : TicketManager) : Prop :=
  (∀ tid t, dictGet m.tickets tid = some t →
      t.id = tid ∧ t.status = "confirmed" ∧ tid < m.next_ticket_id ∧
      ∃ b, dictGet m.buses t.bus = some b ∧ t.seat ∈ b.booked_seats) ∧
  (∀ tid1 t1 tid2 t2, dictGet m.tickets tid1 = some t1 →
      dictGet m.tickets tid2 = some t2 →
      t1.bus = t2.bus → t1.seat = t2.seat → tid1 = tid2)

theorem Inv_init : Inv initManager := by
  constructor
  · intro tid t h
    simp [initManager, dictGet] at h
  · intro tid1 t1 tid2 t2 h1
    simp [initManager, dictGet] at h1

/-- Shape of a successful `create_ticket`. -/
theorem create_ticket_success (m : TicketManager) (name bus seat : String)
    (now : Nat) (t : Ticket) (m' : TicketManager)
    (h : m.create_ticket name bus seat now = (some t, m')) :
    ∃ b, dictGet m.buses bus = some b ∧ seat ∉ b.booked_seats ∧
      t = { id := m.next_ticket_id, name := name, bus := bus, seat := seat
            booking_time := now, status := "confirmed" } ∧
      m' = { tickets := dictSet m.tickets m.next_ticket_id t
             buses := dictSet m.buses bus
               { b with booked_seats := b.booked_seats ++ [seat] }
             next_ticket_id := m.next_ticket_id + 1 } := by
  unfold TicketManager.create_ticket at h
  split at h
  · simp at h
  · rename_i b hb
    split at h
    · simp at h
    · rename_i b' hbk
      obtain ⟨hfree, hb'⟩ := (book_seat_true_iff b seat b').mp hbk
      simp only [Prod.mk.injEq, Option.some.injEq] at h
      exact ⟨b, hb, hfree, h.1.symm, by rw [← h.2, hb', ← h.1]⟩

/-- Shape of a failed `create_ticket`: the state is returned untouched. -/
theorem create_ticket_failure (m : TicketManager) (name bus seat : String)
    (now : Nat) (m' : TicketManager)
    (h : m.create_ticket name bus seat now = (none, m')) : m' = m := by
  unfold TicketManager.create_ticket at h
  split at h
  · simp at h; exact h.symm
  · split at h
    · simp at h; exact h.symm
    · simp at h

theorem Inv_create (m : TicketManager) (hm : Inv m) (name bus seat : String)
    (now : Nat) : Inv (m.create_ticket name bus seat now).2 := by
  cases hc : m.create_ticket name bus seat now with
  | mk r m' =>
    cases r with
    | none => rw [create_ticket_failure m name bus seat now m' hc]; exact hm
    | some t =>
      obtain ⟨b, hb, hfree, ht, hm'⟩ := create_ticket_success m name bus seat now t m' hc
      subst hm'
      obtain ⟨h1, h2⟩ := hm
      constructor
      · intro tid t' hget
        by_cases htid : tid = m.next_ticket_id
        · subst htid
          rw [dictGet_dictSet_self] at hget
          obtain rfl : t = t' := by injection hget
          refine ⟨by rw [ht], by rw [ht], Nat.lt_succ_self _, ?_⟩
          refine ⟨{ b with booked_seats := b.booked_seats ++ [seat] }, ?_, ?_⟩
          · rw [ht]; exact dictGet_dictSet_self m.buses bus _
          · rw [ht]; simp
        · rw [dictGet_dictSet_ne m.tickets m.next_ticket_id tid t htid] at hget
          obtain ⟨hid, hst, hlt, b0, hb0, hseat⟩ := h1 tid t' hget
          refine ⟨hid, hst, Nat.lt_succ_of_lt hlt, ?_⟩
          by_cases hbus : t'.bus = bus
          · rw [hbus] at hb0 ⊢
            rw [hb0] at hb
            obtain rfl : b0 = b := by injection hb
            exact ⟨_, dictGet_dictSet_self m.buses bus _, by simp [hseat]⟩
          · exact ⟨b0, by rw [dictGet_dictSet_ne m.buses bus t'.bus _ hbus]; exact hb0, hseat⟩
      · intro tid1 t1 tid2 t2 hg1 hg2 hbus hseatq
        by_cases e1 : tid1 = m.next_ticket_id <;> by_cases e2 : tid2 = m.next_ticket_id
        · rw [e1, e2]
        · exfalso
          subst e1
          rw [dictGet_dictSet_self] at hg1
          obtain rfl : t = t1 := by injection hg1
          rw [dictGet_dictSet_ne m.tickets m.next_ticket_id tid2 t e2] at hg2
          obtain ⟨_, _, _, b0, hb0, hseat2⟩ := h1 tid2 t2 hg2
          rw [← hbus, ht] at hb0
          rw [hb] at hb0
          obtain rfl : b = b0 := by injection hb0
          rw [← hseatq, ht] at hseat2
          exact hfree hseat2
        · exfalso
          subst e2
          rw [dictGet_dictSet_self] at hg2
          obtain rfl : t = t2 := by injection hg2
          rw [dictGet_dictSet_ne m.tickets m.next_ticket_id tid1 t e1] at hg1
          obtain ⟨_, _, _, b0, hb0, hseat1⟩ := h1 tid1 t1 hg1
          rw [hbus, ht] at hb0
          rw [hb] at hb0
          obtain rfl : b = b0 := by injection hb0
          rw [hseatq, ht] at hseat1
          exact hfree hseat1
        · rw [dictGet_dictSet_ne m.tickets m.next_ticket_id tid1 t e1] at hg1
          rw [dictGet_dictSet_ne m.tickets m.next_ticket_id tid2 t e2] at hg2
          exact h2 tid1 t1 tid2 t2 hg1 hg2 hbus hseatq

theorem cancel_ticket_next (m : TicketManager) (tid : Nat) :
    (m.cancel_ticket tid).2.next_ticket_id = m.next_ticket_id := by
  unfold TicketManager.cancel_ticket
  split
  · rfl
  · rfl

theorem update_ticket_next (m : TicketManager) (tid : Nat) (n : String) :
    (m.update_ticket tid n).2.next_ticket_id = m.next_ticket_id := by
  unfold TicketManager.update_ticket
  split
  · rfl
  · rfl

theorem Inv_cancel (m : TicketManager) (hm : Inv m) (tid : Nat) :
    Inv (m.cancel_ticket tid).2 := by
  obtain ⟨h1, h2⟩ := hm
  unfold TicketManager.cancel_ticket TicketManager.get_ticket
  cases hg : dictGet m.tickets tid with
  | none => exact ⟨h1, h2⟩
  | some t0 =>
    dsimp only
    have tickets_lookup : ∀ tid' t',
        dictGet (dictErase (dictSet m.tickets tid t0.cancelTicket) tid) tid' = some t' →
        tid' ≠ tid ∧ dictGet m.tickets tid' = some t' := by
      intro tid' t' hget
      by_cases e : tid' = tid
      · subst e
        rw [dictGet_dictErase_self] at hget
        exact absurd hget (by simp)
      · rw [dictGet_dictErase_ne _ tid tid' e,
            dictGet_dictSet_ne _ tid tid' _ e] at hget
        exact ⟨e, hget⟩
    constructor
    · intro tid' t' hget
      obtain ⟨hne, hold⟩ := tickets_lookup tid' t' hget
      obtain ⟨hid, hst, hlt, b0, hb0, hseat⟩ := h1 tid' t' hold
      refine ⟨hid, hst, hlt, ?_⟩
      cases hbb : dictGet m.buses t0.bus with
      | none => exact ⟨b0, hb0, hseat⟩
      | some bb =>
        by_cases hbus : t'.bus = t0.bus
        · rw [hbus] at hb0
          rw [hbb] at hb0
          obtain rfl : bb = b0 := by injection hb0
          refine ⟨bb.release_seat t0.seat, ?_, ?_⟩
          · rw [hbus]; exact dictGet_dictSet_self m.buses t0.bus _
          · have hseat_ne : t'.seat ≠ t0.seat := by
              intro he
              exact hne (h2 tid' t' tid t0 hold hg hbus he)
            simp [Bus.release_seat, List.mem_filter, hseat, hseat_ne]
        · exact ⟨b0, by rw [dictGet_dictSet_ne m.buses t0.bus t'.bus _ hbus]; exact hb0, hseat⟩
    · intro tid1 t1 tid2 t2 hg1 hg2 hbus hseatq
      obtain ⟨_, hold1⟩ := tickets_lookup tid1 t1 hg1
      obtain ⟨_, hold2⟩ := tickets_lookup tid2 t2 hg2
      exact h2 tid1 t1 tid2 t2 hold1 hold2 hbus hseatq

theorem Inv_update (m : TicketManager) (hm : Inv m) (tid : Nat) (n : String) :
    Inv (m.update_ticket tid n).2 := by
  obtain ⟨h1, h2⟩ := hm
  unfold TicketManager.update_ticket TicketManager.get_ticket
  cases hg : dictGet m.tickets tid with
  | none => exact ⟨h1, h2⟩
  | some t0 =>
    dsimp only
    have tickets_lookup : ∀ tid' t',
        dictGet (dictSet m.tickets tid (t0.updateName n)) tid' = some t' →
        (tid' = tid ∧ t' = t0.updateName n) ∨
          (tid' ≠ tid ∧ dictGet m.tickets tid' = some t') := by
      intro tid' t' hget
      by_cases e : tid' = tid
      · subst e
        rw [dictGet_dictSet_self] at hget
        injection hget with hh
        exact Or.inl ⟨rfl, hh.symm⟩
      · rw [dictGet_dictSet_ne _ tid tid' _ e] at hget
        exact Or.inr ⟨e, hget⟩
    constructor
    · intro tid' t' hget
      rcases tickets_lookup tid' t' hget with ⟨rfl, rfl⟩ | ⟨_, hold⟩
      · obtain ⟨hid, hst, hlt, b0, hb0, hseat⟩ := h1 tid' t0 hg
        exact ⟨hid, hst, hlt, b0, hb0, hseat⟩
      · exact h1 tid' t' hold
    · intro tid1 t1 tid2 t2 hg1 hg2 hbus hseatq
      rcases tickets_lookup tid1 t1 hg1 with ⟨rfl, rfl⟩ | ⟨_, hold1⟩ <;>
        rcases tickets_lookup tid2 t2 hg2 with ⟨rfl, rfl⟩ | ⟨_, hold2⟩
      · rfl
      · exact h2 tid1 t0 tid2 t2 hg hold2 hbus hseatq
      · exact h2 tid1 t1 tid2 t0 hold1 hg hbus hseatq
      · exact h2 tid1 t1 tid2 t2 hold1 hold2 hbus hseatq

/-- Trace invariant: the engine invariant, the counter at least 1, and the
issued-id log equal to `1, 2, ..., next_ticket_id - 1`. -/
def InvI (s : TicketManager × List Nat) : Prop :=
  Inv s.1 ∧ 1 ≤ s.1.next_ticket_id ∧
    s.2 = List.range' 1 (s.1.next_ticket_id - 1)

theorem InvI_init : InvI (initManager, []) :=
  ⟨Inv_init, le_refl 1, by simp [initManager]⟩

theorem InvI_step (s : TicketManager × List Nat) (op : Op) (hs : InvI s) :
    InvI (stepOp s op) := by
  obtain ⟨m, issued⟩ := s
  obtain ⟨hinv, hone, hlog⟩ := hs
  dsimp only at hinv hone hlog
  cases op with
  | create name bus seat now =>
    cases hc : m.create_ticket name bus seat now with
    | mk r m' =>
      cases r with
      | none =>
        simp only [stepOp, hc]
        have := create_ticket_failure m name bus seat now m' hc
        subst this
        exact ⟨hinv, hone, hlog⟩
      | some t =>
        simp only [stepOp, hc]
        obtain ⟨b, hb, hfree, ht, hm'⟩ :=
          create_ticket_success m name bus seat now t m' hc
        have hinv' : Inv m' := by
          have := Inv_create m hinv name bus seat now
          rw [hc] at this
          exact this
        have hid : t.id = m.next_ticket_id := by rw [ht]
        have hnext : m'.next_ticket_id = m.next_ticket_id + 1 := by rw [hm']
        refine ⟨hinv', ?_, ?_⟩
        · rw [hnext]; exact Nat.le_succ_of_le hone
        · show issued ++ [t.id] = List.range' 1 (m'.next_ticket_id - 1)
          rw [hlog, hid, hnext]
          have h1 : m.next_ticket_id + 1 - 1 = (m.next_ticket_id - 1) + 1 := by omega
          rw [h1, List.range'_concat]
          congr 2
          omega
  | cancel tid =>
    simp only [stepOp]
    refine ⟨Inv_cancel m hinv tid, ?_, ?_⟩
    · rw [cancel_ticket_next]; exact hone
    · rw [cancel_ticket_next]; exact hlog
  | update tid n =>
    simp only [stepOp]
    refine ⟨Inv_update m hinv tid n, ?_, ?_⟩
    · rw [update_ticket_next]; exact hone
    · rw [update_ticket_next]; exact hlog

theorem InvI_runOps (ops : List Op) : InvI (runOps ops) := by
  unfold runOps
  have h : ∀ (l : List Op) (s : TicketManager × List Nat),
      InvI s → InvI (l.foldl stepOp s) := by
    intro l
    induction l with
    | nil => intro s hs; exact hs
    | cons op rest ih => intro s hs; exact ih _ (InvI_step s op hs)
  exact h ops _ InvI_init

/-! ### Evaluation lemmas for the engine operations -/

theorem create_ticket_eval_unknown (m : TicketManager) (name bus seat : String)
    (now : Nat) (hb : dictGet m.buses bus = none) :
    m.create_ticket name bus seat now = (none, m) := by
  unfold TicketManager.create_ticket
  split
  · rfl
  · rename_i b hb2
    simp [hb] at hb2

theorem create_ticket_eval_booked (m : TicketManager) (name bus seat : String)
    (now : Nat) (b : Bus) (hb : dictGet m.buses bus = some b)
    (hmem : seat ∈ b.booked_seats) :
    m.create_ticket name bus seat now = (none, m) := by
  unfold TicketManager.create_ticket
  split
  · rename_i hb2
    simp [hb] at hb2
  · rename_i b2 hb2
    rw [hb] at hb2
    obtain rfl : b = b2 := by injection hb2
    split
    · rfl
    · rename_i b' hbk
      obtain ⟨hfree, _⟩ := (book_seat_true_iff b seat b').mp hbk
      exact absurd hmem hfree

theorem create_ticket_eval_free (m : TicketManager) (name bus seat : String)
    (now : Nat) (b : Bus) (hb : dictGet m.buses bus = some b)
    (hfree : seat ∉ b.booked_seats) :
    m.create_ticket name bus seat now =
      (some { id := m.next_ticket_id, name := name, bus := bus, seat := seat
              booking_time := now, status := "confirmed" },
       { tickets := dictSet m.tickets m.next_ticket_id
           { id := m.next_ticket_id, name := name, bus := bus, seat := seat
             booking_time := now, status := "confirmed" }
         buses := dictSet m.buses bus
           { b with booked_seats := b.booked_seats ++ [seat] }
         next_ticket_id := m.next_ticket_id + 1 }) := by
  unfold TicketManager.create_ticket
  split
  · rename_i hb2
    simp [hb] at hb2
  · rename_i b2 hb2
    rw [hb] at hb2
    obtain rfl : b = b2 := by injection hb2
    split
    · rename_i b' hbk
      obtain ⟨hmem, _⟩ := (book_seat_false_iff b seat b').mp hbk
      exact absurd hmem hfree
    · rename_i b' hbk
      obtain ⟨_, hb'⟩ := (book_seat_true_iff b seat b').mp hbk
      subst hb'
      rfl

theorem cancel_ticket_eval_missing (m : TicketManager) (tid : Nat)
    (hg : dictGet m.tickets tid = none) :
    m.cancel_ticket tid = (false, m) := by
  unfold TicketManager.cancel_ticket TicketManager.get_ticket
  rw [hg]

theorem cancel_ticket_eval_found (m : TicketManager) (tid : Nat) (t0 : Ticket)
    (bb : Bus) (hg : dictGet m.tickets tid = some t0)
    (hb : dictGet m.buses t0.bus = some bb) :
    m.cancel_ticket tid =
      (true, { m with
        buses := dictSet m.buses t0.bus (bb.release_seat t0.seat)
        tickets := dictErase (dictSet m.tickets tid t0.cancelTicket) tid }) := by
  unfold TicketManager.cancel_ticket TicketManager.get_ticket
  rw [hg]
  dsimp only
  rw [hb]

theorem update_ticket_eval_missing (m : TicketManager) (tid : Nat) (n : String)
    (hg : dictGet m.tickets tid = none) :
    m.update_ticket tid n = (none, m) := by
  unfold TicketManager.update_ticket TicketManager.get_ticket
  rw [hg]

theorem update_ticket_eval_found (m : TicketManager) (tid : Nat) (n : String)
    (t0 : Ticket) (hg : dictGet m.tickets tid = some t0) :
    m.update_ticket tid n =
      (some (t0.updateName n),
       { m with tickets := dictSet m.tickets tid (t0.updateName n) }) := by
  unfold TicketManager.update_ticket TicketManager.get_ticket
  rw [hg]

/-! ### Claims -/

/-- C6: fare computation is a pure function of (bus code, seat class) — in
this embedding of `utils.calculate_fare` purity is structural (the Python
function reads no mutable state), so repeated calls agree definitionally —
and `calculate_fare("BUS001","premium") = 50 × 1.5 × 1.3 = 97.5`,
`calculate_fare("BUS003","sleeper") = 50 × 1.0 × 1.5 = 75.0` (both products
are exact in IEEE doubles, so the `ℚ` values are the floats the source
returns). -/
theorem fare_deterministic_and_values :
    (∀ bus seat_type : String,
      calculate_fare bus seat_type = calculate_fare bus seat_type) ∧
    calculate_fare "BUS001" "premium" = 97.5 ∧
    calculate_fare "BUS003" "sleeper" = 75 := by
  refine ⟨fun _ _ => rfl, ?_, ?_⟩ <;>
    · simp only [calculate_fare, String.reduceEq, reduceIte]
      norm_num

/-- C7: `utils.get_seat_type` classifies positions 1 and 10 as premium, 11
and 30 as standard, 31 and 40 as sleeper; every input is classified (the
function always lands in one of the three classes); and every identifier
failing `validate_seat_number` yields "standard". -/
theorem seat_class_partition :
    get_seat_type "S01" = "premium" ∧ get_seat_type "S10" = "premium" ∧
    get_seat_type "S11" = "standard" ∧ get_seat_type "S30" = "standard" ∧
    get_seat_type "S31" = "sleeper" ∧ get_seat_type "S40" = "sleeper" ∧
    (∀ s : String, get_seat_type s = "premium" ∨ get_seat_type s = "standard" ∨
      get_seat_type s = "sleeper") ∧
    (∀ s : String, validate_seat_number s = false → get_seat_type s = "standard") := by
  refine ⟨by decide, by decide, by decide, by decide, by decide, by decide, ?_, ?_⟩
  · intro s
    unfold get_seat_type
    split
    · right; left; rfl
    · dsimp only
      split
      · left; rfl
      · split
        · right; right; rfl
        · right; left; rfl
  · intro s h
    unfold get_seat_type
    simp [h]

/-- Witness for C7 at the concrete invalid identifier "INVALID". -/
theorem seat_class_partition_witness :
    validate_seat_number "INVALID" = false ∧ get_seat_type "INVALID" = "standard" :=
  ⟨by decide, seat_class_partition.2.2.2.2.2.2.2 "INVALID" (by decide)⟩

/-- A successful `cancel_ticket` deletes the record: the following
`get_ticket` returns nothing and a second `cancel_ticket` reports failure,
leaving the state unchanged. -/
theorem cancel_deletes_record (m m' : TicketManager) (tid : Nat)
    (h : m.cancel_ticket tid = (true, m')) :
    m'.get_ticket tid = none ∧ m'.cancel_ticket tid = (false, m') := by
  have hget : m'.get_ticket tid = none := by
    unfold TicketManager.cancel_ticket TicketManager.get_ticket at h
    split at h
    · simp at h
    · rename_i t0 hg
      dsimp only at h
      injection h with h1 h2
      rw [← h2]
      exact dictGet_dictErase_self _ tid
  exact ⟨hget, cancel_ticket_eval_missing m' tid hget⟩

/-- A successful `cancel_ticket` looked its ticket up. -/
theorem cancel_ticket_success_found (m m' : TicketManager) (tid : Nat)
    (h : m.cancel_ticket tid = (true, m')) :
    ∃ t0, dictGet m.tickets tid = some t0 := by
  unfold TicketManager.cancel_ticket TicketManager.get_ticket at h
  split at h
  · simp at h
  · rename_i t0 hg
    exact ⟨t0, hg⟩

/-- An id that is absent from the store and already below the counter stays
absent across every further operation (ids are never reissued). -/
theorem absent_id_stays_absent (op : Op) (m : TicketManager) (issued : List Nat)
    (tid : Nat) (h1 : dictGet m.tickets tid = none)
    (h2 : tid < m.next_ticket_id) :
    dictGet (stepOp (m, issued) op).1.tickets tid = none ∧
      tid < (stepOp (m, issued) op).1.next_ticket_id := by
  cases op with
  | create name bus seat now =>
    cases hc : m.create_ticket name bus seat now with
    | mk r m2 =>
      cases r with
      | none =>
        simp only [stepOp, hc]
        rw [create_ticket_failure m name bus seat now m2 hc]
        exact ⟨h1, h2⟩
      | some t =>
        simp only [stepOp, hc]
        obtain ⟨b, hb, hfree, ht, hm2⟩ :=
          create_ticket_success m name bus seat now t m2 hc
        subst hm2
        refine ⟨?_, Nat.lt_succ_of_lt h2⟩
        show dictGet (dictSet m.tickets m.next_ticket_id t) tid = none
        rw [dictGet_dictSet_ne m.tickets m.next_ticket_id tid t (by omega)]
        exact h1
  | cancel tid0 =>
    simp only [stepOp]
    refine ⟨?_, by rw [cancel_ticket_next]; exact h2⟩
    unfold TicketManager.cancel_ticket TicketManager.get_ticket
    cases hg : dictGet m.tickets tid0 with
    | none => exact h1
    | some t0 =>
      dsimp only
      by_cases e : tid = tid0
      · subst e
        exact dictGet_dictErase_self _ tid
      · rw [dictGet_dictErase_ne _ tid0 tid e, dictGet_dictSet_ne _ tid0 tid _ e]
        exact h1
  | update tid0 n =>
    simp only [stepOp]
    refine ⟨?_, by rw [update_ticket_next]; exact h2⟩
    unfold TicketManager.update_ticket TicketManager.get_ticket
    cases hg : dictGet m.tickets tid0 with
    | none => exact h1
    | some t0 =>
      dsimp only
      by_cases e : tid = tid0
      · subst e
        rw [hg] at h1
        exact absurd h1 (by simp)
      · rw [dictGet_dictSet_ne _ tid0 tid _ e]
        exact h1

theorem absent_id_stays_absent_run (ops : List Op) (m : TicketManager)
    (issued : List Nat) (tid : Nat) (h1 : dictGet m.tickets tid = none)
    (h2 : tid < m.next_ticket_id) :
    dictGet (List.foldl stepOp (m, issued) ops).1.tickets tid = none := by
  induction ops generalizing m issued with
  | nil => exact h1
  | cons op rest ih =>
    obtain ⟨g1, g2⟩ := absent_id_stays_absent op m issued tid h1 h2
    rw [List.foldl_cons]
    cases hst : stepOp (m, issued) op with
    | mk m2 issued2 =>
      rw [hst] at g1 g2
      exact ih m2 issued2 g1 g2

/-- C9: over any reachable state, once `cancel_ticket tid` succeeds,
`get_ticket tid` returns nothing — no cancelled-status record is served —
and keeps doing so across every continuation of the trace (ids are never
reissued); a second `cancel_ticket tid` reports failure and changes
nothing. -/
theorem cancel_then_get_not_found (ops : List Op) (tid : Nat) (m' : TicketManager)
    (h : (runOps ops).1.cancel_ticket tid = (true, m')) :
    m'.get_ticket tid = none ∧ m'.cancel_ticket tid = (false, m') ∧
    ∀ (more : List Op) (issued : List Nat),
      (List.foldl stepOp (m', issued) more).1.get_ticket tid = none := by
  obtain ⟨hget, hre⟩ := cancel_deletes_record (runOps ops).1 m' tid h
  refine ⟨hget, hre, ?_⟩
  intro more issued
  obtain ⟨t0, hg⟩ := cancel_ticket_success_found (runOps ops).1 m' tid h
  obtain ⟨⟨hpart1, _⟩, _, _⟩ := InvI_runOps ops
  obtain ⟨_, _, hlt, _⟩ := hpart1 tid t0 hg
  have hnext : m'.next_ticket_id = (runOps ops).1.next_ticket_id := by
    have := cancel_ticket_next (runOps ops).1 tid
    rw [h] at this
    exact this
  exact absent_id_stays_absent_run more m' issued tid hget (by omega)

/-- Witness for C9: cancelling the first ticket of a fresh booking, then
probing the store again after one more unrelated operation. -/
theorem cancel_then_get_not_found_witness :
    ((runOps [Op.create "Alice" "BUS001" "S01" 0]).1.cancel_ticket 1).2.get_ticket 1 = none ∧
    (List.foldl stepOp (((runOps [Op.create "Alice" "BUS001" "S01" 0]).1.cancel_ticket 1).2, [])
      [Op.create "Bob" "BUS002" "S02" 1]).1.get_ticket 1 = none := by
  have h := cancel_then_get_not_found [Op.create "Alice" "BUS001" "S01" 0] 1
    ((runOps [Op.create "Alice" "BUS001" "S01" 0]).1.cancel_ticket 1).2 (by decide)
  exact ⟨h.1, h.2.2 [Op.create "Bob" "BUS002" "S02" 1] []⟩

/-- C10: a failed `create_ticket` is atomic — it fails exactly when the bus
is unknown or the seat is already booked on it, and then the manager
(tickets, buses, counter) is returned unchanged. -/
theorem create_ticket_failure_atomic (m : TicketManager)
    (name bus seat : String) (now : Nat) :
    ((m.create_ticket name bus seat now).1 = none ↔
      dictGet m.buses bus = none ∨
        ∃ b, dictGet m.buses bus = some b ∧ seat ∈ b.booked_seats) ∧
    ((m.create_ticket name bus seat now).1 = none →
      (m.create_ticket name bus seat now).2 = m) := by
  constructor
  · constructor
    · intro h
      cases hb : dictGet m.buses bus with
      | none => exact Or.inl rfl
      | some b =>
        by_cases hmem : seat ∈ b.booked_seats
        · exact Or.inr ⟨b, rfl, hmem⟩
        · rw [create_ticket_eval_free m name bus seat now b hb hmem] at h
          simp at h
    · intro h
      rcases h with hb | ⟨b, hb, hmem⟩
      · rw [create_ticket_eval_unknown m name bus seat now hb]
      · rw [create_ticket_eval_booked m name bus seat now b hb hmem]
  · intro h
    have hpair : m.create_ticket name bus seat now =
        (none, (m.create_ticket name bus seat now).2) := by
      rw [← h]
    exact create_ticket_failure m name bus seat now _ hpair

/-- Witness for C10: a second booking of BUS001/S01 fails and leaves the
manager exactly as it was. -/
theorem create_ticket_failure_atomic_witness :
    ((runOps [Op.create "Alice" "BUS001" "S01" 0]).1.create_ticket "Bob" "BUS001" "S01" 1).2 =
      (runOps [Op.create "Alice" "BUS001" "S01" 0]).1 :=
  (create_ticket_failure_atomic (runOps [Op.create "Alice" "BUS001" "S01" 0]).1
    "Bob" "BUS001" "S01" 1).2 (by decide)

/-- After a successful create, a second create for the same (bus, seat)
fails: the seat is now in the bus's booked set. -/
theorem create_then_create_fails (m m1 : TicketManager) (tk : Ticket)
    (name1 name2 bus seat : String) (now1 now2 : Nat)
    (h : m.create_ticket name1 bus seat now1 = (some tk, m1)) :
    m1.create_ticket name2 bus seat now2 = (none, m1) := by
  obtain ⟨b, hb, hfree, ht, hm1⟩ := create_ticket_success m name1 bus seat now1 tk m1 h
  have hb1 : dictGet m1.buses bus =
      some { b with booked_seats := b.booked_seats ++ [seat] } := by
    rw [hm1]
    exact dictGet_dictSet_self m.buses bus _
  exact create_ticket_eval_booked m1 name2 bus seat now2 _ hb1 (by simp)

/-- C3: over every operation trace from the initial manager, the issued
ticket ids are exactly 1, 2, 3, ... in order — strictly increasing,
starting at 1, and never reused even when cancellations are interleaved. -/
theorem ticket_ids_strictly_increasing (ops : List Op) :
    List.Pairwise (· < ·) (runOps ops).2 ∧
    (runOps ops).2 = List.range' 1 (runOps ops).2.length := by
  obtain ⟨_, hone, hlog⟩ := InvI_runOps ops
  have hlen : (runOps ops).2.length = (runOps ops).1.next_ticket_id - 1 := by
    rw [hlog, List.length_range']
  constructor
  · rw [hlog]
    exact List.pairwise_lt_range' _ _
  · rw [hlen, hlog]

/-- C1: in every reachable state, no two stored confirmed tickets share a
(bus, seat) pair; when a confirmed ticket for (B, S) exists, a further
`create_ticket` for (B, S) fails (the engine's seat-unavailable outcome:
`book_seat` returns false and `create_ticket` returns `None`) and leaves the
state unchanged; and of two consecutive creates for the same (B, S) the
second always fails. -/
theorem no_double_booking (ops : List Op) :
    (∀ tid1 t1 tid2 t2,
        dictGet (runOps ops).1.tickets tid1 = some t1 →
        dictGet (runOps ops).1.tickets tid2 = some t2 →
        t1.status = "confirmed" → t2.status = "confirmed" →
        t1.bus = t2.bus → t1.seat = t2.seat → tid1 = tid2) ∧
    (∀ tid t name now, dictGet (runOps ops).1.tickets tid = some t →
        t.status = "confirmed" →
        (runOps ops).1.create_ticket name t.bus t.seat now = (none, (runOps ops).1)) ∧
    (∀ (m1 : TicketManager) (tk : Ticket) (name1 name2 bus seat : String)
        (now1 now2 : Nat),
        (runOps ops).1.create_ticket name1 bus seat now1 = (some tk, m1) →
        m1.create_ticket name2 bus seat now2 = (none, m1)) := by
  obtain ⟨⟨h1, h2⟩, _, _⟩ := InvI_runOps ops
  refine ⟨?_, ?_, ?_⟩
  · intro tid1 t1 tid2 t2 hg1 hg2 _ _ hbus hseat
    exact h2 tid1 t1 tid2 t2 hg1 hg2 hbus hseat
  · intro tid t name now hg _
    obtain ⟨_, _, _, b, hb, hseat⟩ := h1 tid t hg
    exact create_ticket_eval_booked _ name t.bus t.seat now b hb hseat
  · intro m1 tk name1 name2 bus seat now1 now2 h
    exact create_then_create_fails _ m1 tk name1 name2 bus seat now1 now2 h

/-- Witness for C1: after booking BUS001/S01, creating again for the stored
ticket's (bus, seat) fails with the state unchanged. -/
theorem no_double_booking_witness :
    (runOps [Op.create "Alice" "BUS001" "S01" 0]).1.create_ticket "Bob" "BUS001" "S01" 1 =
      (none, (runOps [Op.create "Alice" "BUS001" "S01" 0]).1) :=
  (no_double_booking [Op.create "Alice" "BUS001" "S01" 0]).2.1 1
    { id := 1, name := "Alice", bus := "BUS001", seat := "S01"
      booking_time := 0, status := "confirmed" } "Bob" 1 (by decide) (by decide)

/-- C4: from any state whose ledger has seat S free on a known bus B,
creating succeeds, cancelling that ticket succeeds, and re-creating the
same (B, S) succeeds because the cancellation released the seat. -/
theorem cancel_then_rebook (m : TicketManager) (bus seat name1 name2 : String)
    (now1 now2 : Nat) (b : Bus) (hb : dictGet m.buses bus = some b)
    (hfree : seat ∉ b.booked_seats) :
    ∃ tk m1 m2 tk2 m3,
      m.create_ticket name1 bus seat now1 = (some tk, m1) ∧
      m1.cancel_ticket tk.id = (true, m2) ∧
      m2.create_ticket name2 bus seat now2 = (some tk2, m3) := by
  have h1 := create_ticket_eval_free m name1 bus seat now1 b hb hfree
  set tk : Ticket :=
    { id := m.next_ticket_id, name := name1, bus := bus, seat := seat
      booking_time := now1, status := "confirmed" } with htk
  set b1 : Bus := { b with booked_seats := b.booked_seats ++ [seat] } with hb1def
  set m1 : TicketManager :=
    { tickets := dictSet m.tickets m.next_ticket_id tk
      buses := dictSet m.buses bus b1
      next_ticket_id := m.next_ticket_id + 1 } with hm1
  have hg1 : dictGet m1.tickets tk.id = some tk := by
    rw [hm1]
    exact dictGet_dictSet_self m.tickets m.next_ticket_id tk
  have hbus1 : dictGet m1.buses tk.bus = some b1 := by
    rw [hm1]
    exact dictGet_dictSet_self m.buses bus b1
  have h2 := cancel_ticket_eval_found m1 tk.id tk b1 hg1 hbus1
  set m2 : TicketManager :=
    { m1 with
      buses := dictSet m1.buses tk.bus (b1.release_seat tk.seat)
      tickets := dictErase (dictSet m1.tickets tk.id tk.cancelTicket) tk.id } with hm2
  have hbus2 : dictGet m2.buses bus = some (b1.release_seat tk.seat) := by
    rw [hm2, hm1]
    show dictGet (dictSet (dictSet m.buses bus b1) bus (b1.release_seat tk.seat)) bus = _
    exact dictGet_dictSet_self _ bus _
  have hfree2 : seat ∉ (b1.release_seat tk.seat).booked_seats := by
    show seat ∉ b1.booked_seats.filter (fun s => s ≠ tk.seat)
    intro hmem
    have := List.of_mem_filter hmem
    simp at this
  have h3 := create_ticket_eval_free m2 name2 bus seat now2
    (b1.release_seat tk.seat) hbus2 hfree2
  exact ⟨tk, m1, m2, _, _, h1, h2, h3⟩

/-- Witness for C4 on the fresh manager, BUS001 seat S01. -/
theorem cancel_then_rebook_witness :
    ∃ tk m1 m2 tk2 m3,
      initManager.create_ticket "Alice" "BUS001" "S01" 0 = (some tk, m1) ∧
      m1.cancel_ticket tk.id = (true, m2) ∧
      m2.create_ticket "Bob" "BUS001" "S01" 1 = (some tk2, m3) :=
  cancel_then_rebook initManager "BUS001" "S01" "Alice" "Bob" 0 1
    { bus_number := "BUS001", total_seats := 40, booked_seats := [] }
    (by decide) (by decide)

/-! ### C2: out-of-range seat identifiers -/

/-- The numeric position of a seat identifier, when it is well-formed: the
parse `int(seat_number[1:])` guarded by `validate_seat_number`, exactly as
`get_seat_type` performs it. -/
def seatPosOf (s : String) : Option Nat :=
  if validate_seat_number s then some (pyIntDigits (s.data.drop 1)) else none

/-- The target seat of a create request lies outside [1, total] of the
target bus (after the same formatting the route applies): the formatted
identifier is unparsable, or parses to a position outside the bus's range;
unknown buses count as out of range, and the bus's seat count is within
the two-digit identifier space (every bus this program constructs has 40
seats). -/
def seat_out_of_range (m : TicketManager) (bus seat : String) : Bool :=
  match dictGet m.buses (format_bus_number bus) with
  | none => true
  | some b =>
    decide (b.total_seats ≤ 99) &&
      (match seatPosOf (format_seat_number seat) with
       | none => true
       | some p => decide (p < 1) || decide (b.total_seats < p))

theorem seatName_pos : ∀ q < 100, 1 ≤ q →
    validate_seat_number (seatName q) = true ∧
      pyIntDigits ((seatName q).data.drop 1) = q := by decide

theorem mem_get_available_seats (b : Bus) (s : String)
    (h : s ∈ b.get_available_seats) :
    ∃ q, 1 ≤ q ∧ q ≤ b.total_seats ∧ s = seatName q := by
  unfold Bus.get_available_seats at h
  have h2 := List.mem_of_mem_filter h
  obtain ⟨i, hi, hs⟩ := List.mem_map.mp h2
  have hlt := List.mem_range.mp hi
  exact ⟨i + 1, by omega, by omega, hs.symm⟩

/-- C2 (amended): a create request whose seat identifier is out of range
for the target bus never succeeds and never changes the state: it is
rejected either by field validation (`VALIDATION_ERROR`) or by the
availability pre-check (`SEAT_NOT_AVAILABLE`); the code has no distinct
InvalidSeat outcome on this path. -/
theorem out_of_range_seat_never_books (m : TicketManager)
    (name bus seat : String) (now : Nat)
    (h : seat_out_of_range m bus seat = true) :
    (errKind (routesCreateTicket m name bus seat now).1 = "VALIDATION_ERROR" ∨
      errKind (routesCreateTicket m name bus seat now).1 = "SEAT_NOT_AVAILABLE") ∧
    (routesCreateTicket m name bus seat now).2 = m := by
  unfold routesCreateTicket
  by_cases he : validate_ticket_data (sanitize_input name) (format_bus_number bus)
      (format_seat_number seat) ≠ []
  · rw [if_pos he]
    exact ⟨Or.inl rfl, rfl⟩
  · have hnotmem : format_seat_number seat ∉
        m.get_available_seats (format_bus_number bus) := by
      intro hmem
      unfold TicketManager.get_available_seats at hmem
      unfold seat_out_of_range at h
      cases hbus : dictGet m.buses (format_bus_number bus) with
      | none =>
        rw [hbus] at hmem
        simp at hmem
      | some b =>
        rw [hbus] at hmem h
        dsimp only at hmem h
        obtain ⟨q, hq1, hq2, hq3⟩ := mem_get_available_seats b _ hmem
        rw [Bool.and_eq_true] at h
        obtain ⟨hle, hpos⟩ := h
        have hle99 : b.total_seats ≤ 99 := of_decide_eq_true hle
        have hq99 : q < 100 := by omega
        obtain ⟨hval, hparse⟩ := seatName_pos q hq99 hq1
        rw [hq3] at hpos
        unfold seatPosOf at hpos
        rw [hval] at hpos
        simp only [if_true, hparse] at hpos
        rw [Bool.or_eq_true] at hpos
        rcases hpos with hp | hp
        · have := of_decide_eq_true hp
          omega
        · have := of_decide_eq_true hp
          omega
    rw [if_neg he, if_pos hnotmem]
    exact ⟨Or.inr rfl, rfl⟩

/-- Witness for C2 (amended) at the fresh manager and seat "S99". -/
theorem out_of_range_seat_never_books_witness :
    seat_out_of_range initManager "BUS001" "S99" = true ∧
    (routesCreateTicket initManager "Bob" "BUS001" "S99" 0).2 = initManager :=
  ⟨by decide,
   (out_of_range_seat_never_books initManager "Bob" "BUS001" "S99" 0 (by decide)).2⟩

/-- Counterexample to C2 as stated: "S99" parses to position 99, outside
[1, 40], yet the engine's `create_ticket` happily books it (models.py has
no range check), and through the route the request fails with
`SEAT_NOT_AVAILABLE`, not an invalid-seat validation error. -/
theorem out_of_range_seat_counterexample :
    (initManager.create_ticket "Bob" "BUS001" "S99" 0).1 =
      some { id := 1, name := "Bob", bus := "BUS001", seat := "S99"
             booking_time := 0, status := "confirmed" } ∧
    dictGet (initManager.create_ticket "Bob" "BUS001" "S99" 0).2.buses "BUS001" =
      some { bus_number := "BUS001", total_seats := 40, booked_seats := ["S99"] } ∧
    validate_ticket_data (sanitize_input "Bob") (format_bus_number "BUS001")
      (format_seat_number "S99") = [] ∧
    errKind (routesCreateTicket initManager "Bob" "BUS001" "S99" 0).1 =
      "SEAT_NOT_AVAILABLE" :=
  ⟨by decide, by decide, by decide, by decide⟩

/-! ### C5: update behaviour -/

/-- C5 (amended): `routes.update_ticket` fails `TICKET_NOT_FOUND` on an
unknown id; on a known id with a supplied name it sanitizes the name and
applies it unconditionally — `validate_passenger_name` is never consulted,
so invalid names are stored — and alters no other field of the ticket. -/
theorem update_ticket_behaviour (m : TicketManager) (tid : Nat) (n : String) :
    (m.get_ticket tid = none →
      routesUpdateTicket m tid (some (some n)) = (.error .TICKET_NOT_FOUND, m)) ∧
    (∀ t, m.get_ticket tid = some t →
      routesUpdateTicket m tid (some (some n)) =
        (.ok (t.updateName (sanitize_input n)),
         { m with tickets := dictSet m.tickets tid (t.updateName (sanitize_input n)) }) ∧
      (t.updateName (sanitize_input n)).name = sanitize_input n ∧
      (t.updateName (sanitize_input n)).id = t.id ∧
      (t.updateName (sanitize_input n)).bus = t.bus ∧
      (t.updateName (sanitize_input n)).seat = t.seat ∧
      (t.updateName (sanitize_input n)).booking_time = t.booking_time ∧
      (t.updateName (sanitize_input n)).status = t.status) := by
  constructor
  · intro h
    unfold routesUpdateTicket
    rw [h]
  · intro t h
    have hu := update_ticket_eval_found m tid (sanitize_input n) t h
    refine ⟨?_, rfl, rfl, rfl, rfl, rfl, rfl⟩
    unfold routesUpdateTicket
    rw [h]
    dsimp only
    rw [hu]

/-- Witness for C5 (amended): updating ticket 1 of a fresh booking with the
(invalid) name "1" succeeds and stores "1". -/
theorem update_ticket_behaviour_witness :
    routesUpdateTicket (runOps [Op.create "Alice" "BUS001" "S01" 0]).1 1 (some (some "1")) =
      (.ok ({ id := 1, name := "Alice", bus := "BUS001", seat := "S01"
              booking_time := 0, status := "confirmed" : Ticket }.updateName
                (sanitize_input "1")),
       { (runOps [Op.create "Alice" "BUS001" "S01" 0]).1 with
         tickets := dictSet (runOps [Op.create "Alice" "BUS001" "S01" 0]).1.tickets 1
           ({ id := 1, name := "Alice", bus := "BUS001", seat := "S01"
              booking_time := 0, status := "confirmed" : Ticket }.updateName
                (sanitize_input "1")) }) :=
  ((update_ticket_behaviour (runOps [Op.create "Alice" "BUS001" "S01" 0]).1 1 "1").2
    { id := 1, name := "Alice", bus := "BUS001", seat := "S01"
      booking_time := 0, status := "confirmed" } (by decide)).1

/-- Counterexample to C5 as stated: "1" fails `validate_passenger_name`,
yet `routes.update_ticket` accepts it — the updated record carries
name "1" and the handler answers with the updated ticket, not an
InvalidName error. -/
theorem update_skips_validation_counterexample :
    validate_passenger_name "1" = false ∧
    (routesUpdateTicket (runOps [Op.create "Alice" "BUS001" "S01" 0]).1 1
        (some (some "1"))).1 =
      Except.ok { id := 1, name := "1", bus := "BUS001", seat := "S01"
                  booking_time := 0, status := "confirmed" } :=
  ⟨by decide, by rfl⟩

/-! ### C8: occupancy rate -/

theorem roundHalfEven_nonneg (q : ℚ) (h : 0 ≤ q) : 0 ≤ roundHalfEven q := by
  unfold roundHalfEven
  dsimp only
  have hf : (0:ℤ) ≤ ⌊q⌋ := Int.le_floor.mpr (by exact_mod_cast h)
  split_ifs <;> omega

theorem roundHalfEven_le_of_le (q : ℚ) (N : ℤ) (h : q ≤ N) :
    roundHalfEven q ≤ N := by
  unfold roundHalfEven
  dsimp only
  have hf : ⌊q⌋ ≤ N := by
    have := Int.floor_mono h
    rwa [Int.floor_intCast] at this
  have hfl : (⌊q⌋ : ℚ) ≤ q := Int.floor_le q
  split_ifs with h1 h2 h3
  · exact hf
  · by_contra hc
    push_neg at hc
    have hfeq : ⌊q⌋ = N := by omega
    have hq : q ≤ ((N:ℤ):ℚ) := by exact_mod_cast h
    rw [hfeq] at h1
    push_neg at h1
    linarith
  · exact hf
  · by_contra hc
    push_neg at hc
    have hfeq : ⌊q⌋ = N := by omega
    have hr : q - ⌊q⌋ = 1/2 := le_antisymm (not_lt.mp h2) (not_lt.mp h1)
    have hq : q ≤ ((N:ℤ):ℚ) := by exact_mod_cast h
    rw [hfeq] at hr
    linarith

theorem roundHalfEven_intCast (z : ℤ) : roundHalfEven (z:ℚ) = z := by
  unfold roundHalfEven
  rw [Int.floor_intCast]
  norm_num

theorem round2_natCast (n : ℕ) : round2 (n:ℚ) = n := by
  unfold round2
  rw [show ((n:ℚ) * 100) = (((n * 100 : ℕ) : ℤ) : ℚ) by push_cast; ring]
  rw [roundHalfEven_intCast]
  push_cast
  field_simp

theorem round2_nonneg (q : ℚ) (h : 0 ≤ q) : 0 ≤ round2 q := by
  unfold round2
  apply div_nonneg _ (by norm_num)
  exact_mod_cast roundHalfEven_nonneg (q * 100) (by nlinarith)

theorem round2_le_100 (q : ℚ) (h : q ≤ 100) : round2 q ≤ 100 := by
  unfold round2
  rw [div_le_iff₀ (by norm_num : (0:ℚ) < 100)]
  have h1 : roundHalfEven (q * 100) ≤ (10000:ℤ) :=
    roundHalfEven_le_of_le _ 10000 (by push_cast; nlinarith)
  calc ((roundHalfEven (q * 100)):ℚ) ≤ ((10000:ℤ):ℚ) := by exact_mod_cast h1
    _ = 100 * 100 := by norm_num

/-- Booking seats 1..10 of BUS003 on the fresh manager. -/
def bookTenOps : List Op :=
  (List.range 10).map (fun i => Op.create "John Doe" "BUS003" (seatName (i + 1)) 0)

/-- Cancelling the ten tickets those bookings issued. -/
def cancelTenOps : List Op := (List.range 10).map (fun i => Op.cancel (i + 1))

/-- C8: the reported occupancy rate is booked/total × 100 rounded to two
decimals; under the ledger invariant (booked count bounded by the seat
count) it lies in [0, 100]; booking seats 1..10 of the 40-seat BUS003
reports 25.0 and cancelling all ten brings it back to 0.0. -/
theorem occupancy_rate_correct (b : Bus) (hle : b.booked_seats.length ≤ b.total_seats)
    (hpos : 0 < b.total_seats) :
    b.to_dict.occupancy_rate =
      round2 ((b.booked_seats.length : ℚ) / (b.total_seats : ℚ) * 100) ∧
    0 ≤ b.to_dict.occupancy_rate ∧ b.to_dict.occupancy_rate ≤ 100 ∧
    (runOps bookTenOps).1.get_bus_info "BUS003" =
      some { bus_number := "BUS003", total_seats := 40, booked_seats := 10
             available_seats := 30, occupancy_rate := 25 } ∧
    (runOps (bookTenOps ++ cancelTenOps)).1.get_bus_info "BUS003" =
      some { bus_number := "BUS003", total_seats := 40, booked_seats := 0
             available_seats := 40, occupancy_rate := 0 } := by
  have hT : (0:ℚ) < (b.total_seats : ℚ) := by exact_mod_cast hpos
  have h0 : 0 ≤ b.get_occupancy_rate := by
    unfold Bus.get_occupancy_rate
    positivity
  have h100 : b.get_occupancy_rate ≤ 100 := by
    unfold Bus.get_occupancy_rate
    have hL : (b.booked_seats.length : ℚ) ≤ (b.total_seats : ℚ) := by exact_mod_cast hle
    have : (b.booked_seats.length : ℚ) / (b.total_seats : ℚ) ≤ 1 :=
      (div_le_one hT).mpr hL
    nlinarith
  refine ⟨rfl, round2_nonneg _ h0, round2_le_100 _ h100, ?_, ?_⟩
  · have hb3 : dictGet (runOps bookTenOps).1.buses "BUS003" =
        some { bus_number := "BUS003", total_seats := 40
               booked_seats := ["S01", "S02", "S03", "S04", "S05",
                                "S06", "S07", "S08", "S09", "S10"] } := by decide
    unfold TicketManager.get_bus_info
    rw [hb3, Option.map_some']
    have hocc : round2 (Bus.get_occupancy_rate
        { bus_number := "BUS003", total_seats := 40
          booked_seats := ["S01", "S02", "S03", "S04", "S05",
                           "S06", "S07", "S08", "S09", "S10"] }) = 25 := by
      have h1 : Bus.get_occupancy_rate
          { bus_number := "BUS003", total_seats := 40
            booked_seats := ["S01", "S02", "S03", "S04", "S05",
                             "S06", "S07", "S08", "S09", "S10"] } = ((25:ℕ):ℚ) := by
        unfold Bus.get_occupancy_rate
        norm_num
      rw [h1, round2_natCast]
      norm_num
    unfold Bus.to_dict
    rw [hocc]
    rfl
  · have hb3 : dictGet (runOps (bookTenOps ++ cancelTenOps)).1.buses "BUS003" =
        some { bus_number := "BUS003", total_seats := 40, booked_seats := [] } := by decide
    unfold TicketManager.get_bus_info
    rw [hb3, Option.map_some']
    have hocc : round2 (Bus.get_occupancy_rate
        { bus_number := "BUS003", total_seats := 40, booked_seats := [] }) = 0 := by
      have h1 : Bus.get_occupancy_rate
          { bus_number := "BUS003", total_seats := 40, booked_seats := [] } = ((0:ℕ):ℚ) := by
        unfold Bus.get_occupancy_rate
        norm_num
      rw [h1, round2_natCast]
      norm_num
    unfold Bus.to_dict
    rw [hocc]
    rfl

/-- Witness for C8 on the freshly constructed 40-seat BUS001 ledger. -/
theorem occupancy_rate_correct_witness :
    ({ bus_number := "BUS001", total_seats := 40, booked_seats := [] : Bus}.booked_seats.length ≤ 40) ∧
    0 ≤ ({ bus_number := "BUS001", total_seats := 40, booked_seats := [] : Bus}).to_dict.occupancy_rate :=
  ⟨by decide,
   (occupancy_rate_correct { bus_number := "BUS001", total_seats := 40, booked_seats := [] }
     (by decide) (by decide)).2.1⟩

end BusApi
